import Mathlib

/-!
Shallow embedding of the bullseye upload service (client, server, common crates)
and proofs about the claims of its specification.

The embedding models:
* the data model of `src/common/src/data.rs` (`Status`, `File`, `Metadata`,
  `UploadRow`),
* the chunk writer of `src/server/src/files.rs` (`new_file`, `delete_file`,
  `write_to_file`) over an explicit file-system state,
* the record store of `src/common/src/db.rs` (`from_database`, `enter`,
  `finish`, `check_out`, `UploadRow.new`, `stream_status_changes`) over an
  explicit list-of-rows database state,
* the HTTP handlers of `src/server/src/main.rs` (`new_upload`,
  `put_upload_chunk`) composing the two,
* the client retry/status logic of `src/client/src/main.rs`
  (`try_something`, the status dispatch of `iter_file`, `main`'s outcome
  dispatch).

External effects (network transport, the RethinkDB engine, `posix_fallocate`)
are modelled by explicit outcome parameters where a failure path matters to a
claim; the kernel file-system calls are modelled by their documented semantics
on a regular file.
-/

namespace Bullseye

/-! ## Data model (src/common/src/data.rs) -/

/-- `UploadError` from data.rs: the failure variants of a finished upload. -/
inductive UploadError
| Checksum
| Verify
| Other
deriving DecidableEq

/-- `Status` from data.rs: the lifecycle states of an upload. -/
inductive Status
| Uploading
| Verifying
| Deriving
| Packing
| Finished
| Abandoned
| Error (e : UploadError)
deriving DecidableEq

/-- `Metadata` from data.rs. -/
structure Metadata where
  uploader : String
  items : List String
deriving DecidableEq

/-- `File` from data.rs: the client-declared file metadata. `size` is a `u64`
in the source; it is modelled as a `Nat` (all sizes the server accepts fit in
`i64`, see `new_file`). -/
structure File where
  hash : String
  name : String
  size : Nat
deriving DecidableEq

/-- `UploadRow` from data.rs: one upload record. `last_activity` is a Unix
timestamp (`u64` in the source, modelled as `Nat`). -/
structure UploadRow where
  id : String
  dir : String
  status : Status
  file : File
  last_activity : Nat
  pipeline : String
  project : String
  processing : Bool
  metadata : Metadata
deriving DecidableEq

/-- `DbError` from db.rs. -/
inductive DbError
| NotFound
| WriteFailed
| WrongStatus
| Other
deriving DecidableEq

/-! ## File-system state for the chunk writer (src/server/src/files.rs)

The data directory is modelled as an association list from upload id to the
byte contents of the backing file (one `Nat` per byte). -/

/-- Contents of one backing file, one entry per byte. -/
abbrev FileContents := List Nat

/-- The data directory: file name (upload id) to contents. -/
abbrev Fs := List (String × FileContents)

/-- Replace the contents stored under `id` (all entries keyed `id`). -/
def Fs.setFile (fs : Fs) (id : String) (c : FileContents) : Fs :=
  fs.map (fun p => bif p.1 == id then (id, c) else p)

/-- Remove the file named `id` from the directory. -/
def Fs.removeFile (fs : Fs) (id : String) : Fs :=
  fs.filter (fun p => !(p.1 == id))

/-- Semantics of a seek-then-write on a regular file: overwrite `bytes` into
`contents` starting at byte position `pos`, zero-filling any gap between the
old end of file and `pos`, and extending the file when the write runs past the
current end. -/
def writeAt (contents : FileContents) (pos : Nat) (bytes : FileContents) :
    FileContents :=
  contents.take pos ++ List.replicate (pos - contents.length) 0 ++ bytes
    ++ contents.drop (pos + bytes.length)

/-- Largest value representable in an `i64`; `new_file` converts its `u64`
size argument with `try_into`, failing above this bound. -/
def I64MAX : Nat := 2 ^ 63 - 1

/-- `new_file` from files.rs. `fallocate_ok` models the outcome of the
`posix_fallocate` call, which depends on the state of the backing disk.
The steps follow the source: convert the size to `i64` (failing with
"File too large"), `File::create_new` (failing if the file exists, otherwise
creating an empty file), then, for a positive size, reserve the space
(`posix_fallocate` extends the file to `with_size` zero bytes), deleting the
freshly created file when the reservation fails. A zero size skips the
reservation entirely. The returned pair is (result, resulting directory). -/
def new_file (fs : Fs) (id : String) (with_size : Nat) (fallocate_ok : Bool) :
    Except String Unit × Fs :=
  if with_size > I64MAX then (Except.error "File too large", fs)
  else if (List.lookup id fs).isSome then (Except.error "File exists", fs)
  else
    let fs1 : Fs := fs ++ [(id, [])]
    if with_size > 0 then
      if fallocate_ok then
        (Except.ok (), fs1.setFile id (List.replicate with_size 0))
      else
        (Except.error "fallocate failed", fs1.removeFile id)
    else (Except.ok (), fs1)

/-- `delete_file` from files.rs: `remove_file` errors when the file does not
exist. -/
def delete_file (fs : Fs) (id : String) : Except String Unit × Fs :=
  if (List.lookup id fs).isSome then (Except.ok (), fs.removeFile id)
  else (Except.error "No such file", fs)

/-- One network chunk of a PUT body as produced by `body.next()`: `none`
models the `Err` arm (a failed chunk read), `some bytes` a received chunk. -/
abbrev Chunk := Option (List Nat)

/-- The receive loop of `write_to_file` from files.rs. Each received chunk is
bounds-checked as `offset + chunk.len() > size` — against the request's
original `offset`, which the source never advances — and then written at the
file cursor, which does advance with each `write_all`. Writes performed before
an error are flushed and fsynced, so they stay committed (the returned
contents reflect them). -/
def writeChunks (contents : FileContents) (cursor offset size : Nat) :
    List Chunk → Except String Unit × FileContents
  | [] => (Except.ok (), contents)
  | none :: _ => (Except.error "Chunk read failed", contents)
  | some c :: rest =>
    if offset + c.length > size then
      (Except.error "Exceeded file bounds", contents)
    else
      writeChunks (writeAt contents cursor c) (cursor + c.length) offset size rest

/-- `write_to_file` from files.rs: open the existing file (shared lock —
lock acquisition is modelled as succeeding; a `Locked` failure is a concurrent
interleaving outside this state model), seek to `offset`, then run the
receive loop. Returns (result, resulting directory). -/
def write_to_file (fs : Fs) (id : String) (size offset : Nat)
    (body : List Chunk) : Except String Unit × Fs :=
  match List.lookup id fs with
  | none => (Except.error "No such file", fs)
  | some contents =>
    let r := writeChunks contents offset offset size body
    (r.1, fs.setFile id r.2)

/-! ## Upload record store (src/common/src/db.rs)

The database is modelled as a list of `UploadRow`s. Transport-level failures
of the store (`WriteFailed`/`Other` on a network error) do not depend on the
request and are modelled by an explicit outcome parameter exactly where a
claim's failure path needs one (`UploadRow.new`); elsewhere the store is
modelled as reachable. -/

/-- `UploadRow::from_database`: `get_all(uuid)` on the primary key returns the
rows whose id equals `uuid`; zero rows is `NotFound`, one row is returned.
More than one row cannot occur for a primary-key lookup; the source marks that
arm `unreachable!()` (a panic), modelled here as `DbError.Other`. -/
def from_database (db : List UploadRow) (uuid : String) :
    Except DbError UploadRow :=
  match db.filter (fun r => r.id == uuid) with
  | [] => Except.error DbError.NotFound
  | [r] => Except.ok r
  | _ => Except.error DbError.Other

/-- `UploadRow::enter`: unconditional update of `last_activity` on the stored
row with the given id; `skipped > 0` (no row with this id) is `NotFound`. The
in-memory copy is updated alongside (`self.last_activity = now`); the result
carries (updated copy, updated database). -/
def enter (now : Nat) (db : List UploadRow) (row : UploadRow) :
    Except DbError (UploadRow × List UploadRow) :=
  if db.any (fun r => r.id == row.id) then
    Except.ok ({row with last_activity := now},
      db.map (fun r =>
        if r.id == row.id then {r with last_activity := now} else r))
  else Except.error DbError.NotFound

/-- `UploadRow::finish`: refuse with `WrongStatus` when the **local copy**'s
status is not `Uploading`; otherwise issue an unconditional
`get(id).update({status: Verifying})` on the stored row (`skipped > 0` is
`NotFound`) and set the local copy's status to `Verifying`. The result carries
(updated copy, updated database). -/
def finish (db : List UploadRow) (row : UploadRow) :
    Except DbError (UploadRow × List UploadRow) :=
  if row.status ≠ Status.Uploading then Except.error DbError.WrongStatus
  else if db.any (fun r => r.id == row.id) then
    Except.ok ({row with status := Status.Verifying},
      db.map (fun r =>
        if r.id == row.id then {r with status := Status.Verifying} else r))
  else Except.error DbError.NotFound

/-- Outcome of the store's `insert` in `UploadRow::new`: the row was inserted
(`inserted == 1`), the engine reported no insertion (`inserted != 1`, mapped
to `WriteFailed`), or the call itself failed (mapped to `Other`). -/
inductive InsertOutcome
| inserted
| notInserted
| callFailed
deriving DecidableEq

/-- `UploadRow::new`: build the fresh row (`status = Uploading`,
`processing = false`, `last_activity = now`) and insert it. On either failure
outcome nothing was inserted and the database is unchanged. -/
def UploadRow.new (ins : InsertOutcome) (now : Nat) (db : List UploadRow)
    (dir id : String) (file : File) (pipeline project : String)
    (metadata : Metadata) : Except DbError (UploadRow × List UploadRow) :=
  let s : UploadRow :=
    { id := id, dir := dir, status := Status.Uploading, file := file,
      last_activity := now, pipeline := pipeline, project := project,
      processing := false, metadata := metadata }
  match ins with
  | InsertOutcome.inserted => Except.ok (s, db ++ [s])
  | InsertOutcome.notInserted => Except.error DbError.WriteFailed
  | InsertOutcome.callFailed => Except.error DbError.Other

/-- Largest `u64` value; `check_out` uses it as the "no staleness filter"
sentinel when `want_processing = false`. -/
def U64MAX : Nat := 2 ^ 64 - 1

/-- The `activity_grace` bound computed at the top of `check_out`:
`now - 60` when reclaiming an in-progress item, `u64::MAX` otherwise.
(`now - 60` is `u64` subtraction in the source; `Nat` subtraction matches it
for every realistic clock value `now ≥ 60`.) -/
def activity_grace (processing : Bool) (now : Nat) : Nat :=
  if processing then now - 60 else U64MAX

/-- The compound secondary-index key match of `check_out`'s
`get_all([project, pipeline, status, processing], index = "nf_status")`. -/
def nf_status_matches (r : UploadRow) (project pipeline : String)
    (status : Status) (processing : Bool) : Bool :=
  r.project == project && r.pipeline == pipeline && r.status == status
    && r.processing == processing

/-- The selection `check_out` samples from: index match followed by the
`last_activity < activity_grace` filter. -/
def check_out_selection (now : Nat) (db : List UploadRow)
    (project pipeline : String) (status : Status) (processing : Bool) :
    List UploadRow :=
  (db.filter (fun r => nf_status_matches r project pipeline status processing)).filter
    (fun r => decide (r.last_activity < activity_grace processing now))

/-- `UploadRow::check_out` after `.sample(1)` has chosen `sample` from
`check_out_selection` (`none` when the selection is empty). The update runs a
`branch` that re-tests `processing` on the sampled row: on the match arm it
sets `processing := true, last_activity := now` (so `replaced > 0` and the
post-update row is returned from `return_changes`); the other arm writes
nothing (`replaced = 0`, returning `none`). The result carries
(returned record, updated database). -/
def check_out (now : Nat) (db : List UploadRow) (processing : Bool)
    (sample : Option UploadRow) :
    Except DbError (Option UploadRow) × List UploadRow :=
  match sample with
  | none => (Except.ok none, db)
  | some r =>
    if r.processing == processing then
      (Except.ok (some {r with processing := true, last_activity := now}),
        db.map (fun x =>
          if x.id == r.id then {x with processing := true, last_activity := now}
          else x))
    else (Except.ok none, db)

/-- `UploadRow::stream_status_changes`: the changefeed on `get(id)` with
`include_initial` delivers the current document first and then the new value
of the document after every subsequent commit to it (`none` when the document
was deleted). The stream yields the status of every event that carries a
document; events without a document are skipped. -/
def stream_status_changes (events : List (Option UploadRow)) : List Status :=
  events.filterMap (fun e => e.map (fun r => r.status))

/-! ## Server HTTP handlers (src/server/src/main.rs) -/

/-- `ErrorablePayload` from src/common/src/payloads.rs: the generic response
envelope. -/
inductive ErrorablePayload (T : Type)
| Ok (t : T)
| NotFound
| Err (msg : String)
deriving DecidableEq

/-- The `From<DbError>` conversion of payloads.rs. -/
def ErrorablePayload.fromDbError {T : Type} : DbError → ErrorablePayload T
  | DbError.NotFound => ErrorablePayload.NotFound
  | DbError.WriteFailed => ErrorablePayload.Err "Write error"
  | DbError.WrongStatus => ErrorablePayload.Err "Wrong status"
  | DbError.Other => ErrorablePayload.Err "Database error"

/-- Is the envelope the success variant? -/
def ErrorablePayload.isOk {T : Type} : ErrorablePayload T → Bool
  | ErrorablePayload.Ok _ => true
  | _ => false

/-- `UploadInformation` from payloads.rs. -/
structure UploadInformation where
  id : String
  base_url : String
deriving DecidableEq

/-- `UploadInitialisationPayload` from payloads.rs. -/
structure UploadInitialisationPayload where
  file : File
  project : String
  pipeline : String
  metadata : Metadata
deriving DecidableEq

/-- The `Path::new(name).file_name()` sanitisation `new_upload` applies to the
client-supplied file name: the final path component. -/
def basename (s : String) : String :=
  match (s.splitOn "/").getLast? with
  | some t => t
  | none => s

/-- The `req.url_for("get_upload", [id])` reverse route of `new_upload`. -/
def url_for_get_upload (id : String) : String := "/upload/" ++ id

/-- Result state of the `new_upload` handler. -/
structure NewUploadResult where
  resp : ErrorablePayload UploadInformation
  fs : Fs
  db : List UploadRow
deriving DecidableEq

/-- The `new_upload` handler (`POST /upload`): sanitise the file name, create
the backing file (`new_file`) — an I/O failure there answers with an error
before any record step — then insert the record (`UploadRow::new`); on a
record-creation failure delete the file (result discarded: `let _ = ...`) and
answer with the converted error. `id` is the freshly generated uuidv7,
supplied here as a parameter. -/
def new_upload (fallocate_ok : Bool) (ins : InsertOutcome) (now : Nat)
    (fs : Fs) (db : List UploadRow) (cwd id : String)
    (pdetails : UploadInitialisationPayload) : NewUploadResult :=
  let details :=
    {pdetails with file := {pdetails.file with name := basename pdetails.file.name}}
  match new_file fs id details.file.size fallocate_ok with
  | (Except.error _, fs1) =>
    { resp := ErrorablePayload.Err "I/O error", fs := fs1, db := db }
  | (Except.ok _, fs1) =>
    match UploadRow.new ins now db cwd id details.file details.pipeline
        details.project details.metadata with
    | Except.ok (entry, db1) =>
      { resp := ErrorablePayload.Ok
          { id := entry.id, base_url := url_for_get_upload entry.id },
        fs := fs1, db := db1 }
    | Except.error e =>
      { resp := ErrorablePayload.fromDbError e,
        fs := (delete_file fs1 id).2, db := db }

/-- Result state of the `put_upload_chunk` handler. -/
structure ChunkPutResult where
  resp : ErrorablePayload Unit
  db : List UploadRow
  fs : Fs
deriving DecidableEq

/-- The `put_upload_chunk` handler (`PUT /upload/{uuid}/data?offset=N`),
following the source exactly: `res` is initialised to `Ok(())` and only the
`if let Ok(row)` branch ever reassigns it — a `from_database` failure leaves
the success envelope in place. Inside the branch: a non-`Uploading` status and
an `offset > row.size()` are refused, then `enter` bumps `last_activity` and
`write_to_file` performs the range write. -/
def put_upload_chunk (now : Nat) (db : List UploadRow) (fs : Fs)
    (uuid : String) (offset : Nat) (body : List Chunk) : ChunkPutResult :=
  match from_database db uuid with
  | Except.error _ => { resp := ErrorablePayload.Ok (), db := db, fs := fs }
  | Except.ok row =>
    if row.status ≠ Status.Uploading then
      { resp := ErrorablePayload.Err "Item is not in the UPLOADING status",
        db := db, fs := fs }
    else if offset > row.file.size then
      { resp := ErrorablePayload.Err "Offset too large", db := db, fs := fs }
    else
      match enter now db row with
      | Except.error e =>
        { resp := ErrorablePayload.fromDbError e, db := db, fs := fs }
      | Except.ok (row2, db2) =>
        match write_to_file fs row2.id row2.file.size offset body with
        | (Except.error _, fs2) =>
          { resp := ErrorablePayload.Err "I/O error", db := db2, fs := fs2 }
        | (Except.ok _, fs2) =>
          { resp := ErrorablePayload.Ok (), db := db2, fs := fs2 }

/-! ## Client driver (src/client/src/main.rs)

The client is built against the string status constants of the `status`
module (`src/common/src/db/mod.rs`). -/

namespace status

def UPLOADING : String := "UPLOADING"

def PENDING : String := "PENDING"

def FINISHED : String := "FINISHED"

def FAILED_CHECKSUM : String := "FAILED_CHECKSUM"

def FAILED_VERIFY : String := "FAILED_VERIFY"

def FAILED_OTHER : String := "FAILED_OTHER"

end status

/-- What one run of the `try_something!` retry wrapper did: whether a call
succeeded, how many attempts were issued, and the backoff sleeps performed
(in seconds, in order; the source sleeps `1 << i` after failed attempt `i`,
including the last one). -/
structure TryResult where
  success : Bool
  attempts : Nat
  sleeps : List Nat
deriving DecidableEq

/-- The `for i in 0..MAX_TRIES` loop of `try_something!`: `f i` is the outcome
of attempt `i` (`true` = the wrapped call returned `Ok`). The first success
returns immediately; each failure sleeps `2 ^ i` seconds and continues;
exhausting the loop is the `bail!` path. -/
def tryLoop (f : Nat → Bool) : Nat → Nat → TryResult
  | _, 0 => { success := false, attempts := 0, sleeps := [] }
  | i, fuel + 1 =>
    if f i then { success := true, attempts := 1, sleeps := [] }
    else
      let rest := tryLoop f (i + 1) fuel
      { success := rest.success, attempts := rest.attempts + 1,
        sleeps := 2 ^ i :: rest.sleeps }

/-- `MAX_TRIES` from the client. -/
def MAX_TRIES : Nat := 7

/-- `try_something!`: run the attempts from `i = 0` with `MAX_TRIES` tries. -/
def try_something (f : Nat → Bool) : TryResult := tryLoop f 0 MAX_TRIES

/-- What the status-subscription loop of `iter_file` does with one received
`StatusChange` payload. -/
inductive IterAction
| stopSuccess
| hardError (msg : String)
| verifyFailed
| keepWaiting (s : String)
deriving DecidableEq

/-- The dispatch on one received status inside `iter_file`'s subscription
loop: `FINISHED` breaks out (the outer `while` then exits and the driver
returns success); `FAILED_CHECKSUM` and `FAILED_OTHER` `bail!` with a generic
error; `FAILED_VERIFY` returns the distinguished `Ok(Err(()))`; anything else
is forwarded to the progress display and the loop continues. -/
def iter_handle_status (s : String) : IterAction :=
  if s == status.FINISHED then IterAction.stopSuccess
  else if s == status.FAILED_CHECKSUM || s == status.FAILED_OTHER then
    IterAction.hardError ("bad status: " ++ s)
  else if s == status.FAILED_VERIFY then IterAction.verifyFailed
  else IterAction.keepWaiting s

/-- `iter_file`'s return value over a sequence of received statuses: the outer
`Except` is any hard error (`anyhow` bail), the inner one the distinguished
hash-verification failure. `none` means the sequence ended without a terminal
status (the source then re-subscribes). -/
def iter_file_outcome : List String → Option (Except String (Except Unit Unit))
  | [] => none
  | s :: rest =>
    match iter_handle_status s with
    | IterAction.stopSuccess => some (Except.ok (Except.ok ()))
    | IterAction.hardError m => some (Except.error m)
    | IterAction.verifyFailed => some (Except.ok (Except.error ()))
    | IterAction.keepWaiting _ => iter_file_outcome rest

/-- What `main`'s retry loop does with one `upload_file` outcome. -/
inductive MainStep
| done
| retryVerifyFailed
| retryOther
deriving DecidableEq

/-- The match in `main`: `Ok(Ok(()))` returns success; `Ok(Err(()))` reports
"hash verification failed" and retries; `Err(e)` reports "other failure" and
retries — the verify-failure outcome is dispatched separately from the
generic error. -/
def main_dispatch : Except String (Except Unit Unit) → MainStep
  | Except.ok (Except.ok _) => MainStep.done
  | Except.ok (Except.error _) => MainStep.retryVerifyFailed
  | Except.error _ => MainStep.retryOther

/-! ## Concrete fixtures used by counterexamples and witnesses -/

/-- A concrete well-formed record (status `Uploading`). -/
def exampleRow : UploadRow :=
  { id := "u1", dir := "data", status := Status.Uploading,
    file := { hash := "h", name := "f.warc", size := 4 },
    last_activity := 100, pipeline := "pl", project := "pr",
    processing := false,
    metadata := { uploader := "op", items := ["item1"] } }

/-- The `exampleRow` record as `check_out` returns it after a successful
claim at time 100. -/
def exampleRowClaimed : UploadRow :=
  {exampleRow with processing := true, last_activity := 100}

/-- A concrete init payload. -/
def examplePayload : UploadInitialisationPayload :=
  { file := { hash := "h", name := "dir/f.warc", size := 3 },
    project := "pr", pipeline := "pl",
    metadata := { uploader := "op", items := ["item1"] } }

/-! ## Theorems -/

/-! ### Helper lemmas about the file-system state -/

theorem lookup_none_forall (fs : Fs) (id : String) :
    List.lookup id fs = none ↔ ∀ p ∈ fs, ¬ p.1 = id := by
  induction fs with
  | nil => simp
  | cons p t ih =>
    obtain ⟨k, v⟩ := p
    by_cases hk : k = id
    · simp [List.lookup, hk]
    · have hb : (id == k) = false := by simp [Ne.symm hk]
      simp [List.lookup, hb, ih, hk]

theorem lookup_append_self (fs : Fs) (id : String) (c : FileContents)
    (h : List.lookup id fs = none) :
    List.lookup id (fs ++ [(id, c)]) = some c := by
  induction fs with
  | nil => simp [List.lookup]
  | cons p t ih =>
    obtain ⟨k, v⟩ := p
    rw [lookup_none_forall] at h
    have hk : ¬ k = id := h (k, v) (by simp)
    have hb : (id == k) = false := by simp [Ne.symm hk]
    have ht : List.lookup id t = none := by
      rw [lookup_none_forall]
      intro q hq
      exact h q (by simp [hq])
    simpa [List.lookup, hb] using ih ht

theorem removeFile_of_lookup_none (fs : Fs) (id : String)
    (h : List.lookup id fs = none) : fs.removeFile id = fs := by
  induction fs with
  | nil => rfl
  | cons p t ih =>
    obtain ⟨k, v⟩ := p
    rw [lookup_none_forall] at h
    have hk : ¬ k = id := h (k, v) (by simp)
    have hb : (k == id) = false := by simp [hk]
    have ht : List.lookup id t = none := by
      rw [lookup_none_forall]
      intro q hq
      exact h q (by simp [hq])
    simpa [Fs.removeFile, List.filter_cons, hb] using ih ht

theorem setFile_of_lookup_none (fs : Fs) (id : String) (c : FileContents)
    (h : List.lookup id fs = none) : fs.setFile id c = fs := by
  induction fs with
  | nil => rfl
  | cons p t ih =>
    obtain ⟨k, v⟩ := p
    rw [lookup_none_forall] at h
    have hk : ¬ k = id := h (k, v) (by simp)
    have hb : (k == id) = false := by simp [hk]
    have ht : List.lookup id t = none := by
      rw [lookup_none_forall]
      intro q hq
      exact h q (by simp [hq])
    simpa [Fs.setFile, hb] using ih ht

theorem setFile_self (fs : Fs) (id : String) (c : FileContents)
    (hnd : (fs.map Prod.fst).Nodup) (h : List.lookup id fs = some c) :
    fs.setFile id c = fs := by
  induction fs with
  | nil => rfl
  | cons p t ih =>
    obtain ⟨k, v⟩ := p
    by_cases hk : k = id
    · have hb : (id == k) = true := by simp [hk]
      have hv : v = c := by
        simpa [List.lookup, hb] using h
      have hnone : List.lookup id t = none := by
        rw [lookup_none_forall]
        intro q hq hq1
        have hmem : k ∈ t.map Prod.fst := by
          rw [hk, ← hq1]
          exact List.mem_map_of_mem Prod.fst hq
        exact (List.nodup_cons.mp hnd).1 hmem
      have hrest := setFile_of_lookup_none t id c hnone
      simpa [Fs.setFile, hk, hv] using hrest
    · have hb : (id == k) = false := by simp [Ne.symm hk]
      have hb2 : (k == id) = false := by simp [hk]
      have ht : List.lookup id t = some c := by
        simpa [List.lookup, hb] using h
      have := ih (List.nodup_cons.mp hnd).2 ht
      simpa [Fs.setFile, hb2] using this

theorem lookup_setFile_isSome (fs : Fs) (id : String) (c : FileContents)
    (h : (List.lookup id fs).isSome = true) :
    List.lookup id (fs.setFile id c) = some c := by
  induction fs with
  | nil => simp [List.lookup] at h
  | cons p t ih =>
    obtain ⟨k, v⟩ := p
    by_cases hk : k = id
    · simp [Fs.setFile, hk, List.lookup]
    · have hb : (id == k) = false := by simp [Ne.symm hk]
      have hb2 : (k == id) = false := by simp [hk]
      have ht : (List.lookup id t).isSome = true := by
        simpa [List.lookup, hb] using h
      simpa [Fs.setFile, hb2, List.lookup, hb] using ih ht

/-- C1: the claim says every chunk-write request whose byte range extends past
`total_size` returns an out-of-bounds error with the file's bytes unchanged,
for every way the byte stream is split into chunks. The code checks each
received chunk as `offset + chunk.len() > size` without ever advancing
`offset`, while the file cursor does advance: a 4-byte body at offset 2 of a
4-byte file, split into two 2-byte chunks, passes both checks, is written at
positions 2..6 growing the file past `total_size`, and is acknowledged with
`Ok`; and when a later chunk is rejected, the earlier chunks of the same
rejected range are already written and fsynced. -/
theorem c1_split_stream_escapes_bounds_check :
    (write_to_file [("u1", [0, 0, 0, 0])] "u1" 4 2 [some [7, 7], some [8, 8]]
      = (Except.ok (), [("u1", [0, 0, 7, 7, 8, 8])]))
    ∧ (write_to_file [("u1", [0, 0, 0, 0])] "u1" 4 2 [some [7, 7], some [9, 9, 9]]
      = (Except.error "Exceeded file bounds", [("u1", [0, 0, 7, 7])])) :=
  ⟨rfl, rfl⟩

/-- C2: the claim says a `NotFound` from the store is always surfaced, and a
chunk PUT naming a nonexistent upload id reports `not_found`. In
`put_upload_chunk` the response is initialised to the success envelope and the
`Err` arm of `from_database` is never inspected, so a PUT against an empty
store answers `Ok(())` even though the lookup failed with `NotFound`. -/
theorem c2_chunk_put_unknown_id_gets_ok_envelope :
    (from_database [] "deadbeef" = Except.error DbError.NotFound)
    ∧ put_upload_chunk 1000 [] [] "deadbeef" 0 []
      = { resp := ErrorablePayload.Ok (), db := [], fs := [] } :=
  ⟨rfl, rfl⟩

/-- C3 counterexample: a changefeed event that only bumps `last_activity`
(exactly what `enter` does on every chunk write) re-emits the unchanged
status, so the emitted sequence `[Uploading, Uploading]` has two consecutive
equal elements — refuting "no two consecutive emissions carry the same
unchanged status". -/
theorem c3_last_activity_bump_duplicates_emission :
    stream_status_changes
        [some exampleRow, some {exampleRow with last_activity := 101}]
      = [Status.Uploading, Status.Uploading]
    ∧ ({exampleRow with last_activity := 101} : UploadRow).status
        = exampleRow.status
    ∧ ¬ List.Chain' (fun a b => a ≠ b)
        (stream_status_changes
          [some exampleRow, some {exampleRow with last_activity := 101}]) := by
  refine ⟨rfl, rfl, fun h => ?_⟩
  have h2 : List.Chain' (fun a b : Status => a ≠ b)
      [Status.Uploading, Status.Uploading] := h
  exact (List.chain'_cons.mp h2).1 rfl

/-- C3 (amended): the stream emits the status carried by every changefeed
event on the record, in delivery order, beginning with the current document
(the `include_initial` event); an event that changes only non-status fields
re-emits the unchanged status, so consecutive duplicates can occur (see the
counterexample). -/
theorem c3_stream_emits_status_of_every_event (history : List UploadRow) :
    stream_status_changes (history.map some)
      = history.map (fun r => r.status) := by
  induction history with
  | nil => rfl
  | cons r rest ih => simp [stream_status_changes]

/-- C4 counterexample: the status guard of `finish` reads the caller's
in-memory copy, and the database update is unconditional. With a stale local
copy still showing `Uploading` while the stored record has moved on to
`Deriving`, `finish` succeeds and overwrites the stored status with
`Verifying` — where the claim demands a `WrongStatus` failure with no write. -/
theorem c4_stale_finish_overwrites :
    ({exampleRow with status := Status.Deriving} : UploadRow).status
      ≠ Status.Uploading
    ∧ finish [{exampleRow with status := Status.Deriving}] exampleRow
      = Except.ok ({exampleRow with status := Status.Verifying},
          [{exampleRow with status := Status.Verifying}])
    ∧ [({exampleRow with status := Status.Verifying} : UploadRow)]
      ≠ [{exampleRow with status := Status.Deriving}] := by
  refine ⟨by decide, rfl, by decide⟩

/-- C4 (amended): `finish` guards on the caller's local copy of the record,
not on the stored status: when the local copy's status is not `Uploading` it
fails with `WrongStatus` and performs no write; when the local copy shows
`Uploading`, it unconditionally sets the stored record's status to `Verifying`
(succeeding even if the stored status has changed since the copy was read).
Through a single handle the transition still succeeds exactly once: the
successful call moves the local copy to `Verifying`, so a second `finish` on
the same handle fails with `WrongStatus` against any database state. -/
theorem c4_finish_guards_local_copy (db : List UploadRow) (row : UploadRow) :
    (row.status ≠ Status.Uploading →
      finish db row = Except.error DbError.WrongStatus)
    ∧ (row.status = Status.Uploading →
        db.any (fun r => r.id == row.id) = true →
        finish db row
          = Except.ok ({row with status := Status.Verifying},
              db.map (fun r =>
                if r.id == row.id then {r with status := Status.Verifying}
                else r))
        ∧ ∀ db2, finish db2 {row with status := Status.Verifying}
            = Except.error DbError.WrongStatus) := by
  constructor
  · intro h
    simp [finish, h]
  · intro h hm
    constructor
    · simp [finish, h, hm]
    · intro db2
      simp [finish]

/-- Witness for the amended C4 theorem at a concrete record and database. -/
theorem c4_finish_guards_local_copy_witness :
    finish [exampleRow] {exampleRow with status := Status.Packing}
      = Except.error DbError.WrongStatus
    ∧ finish [exampleRow] exampleRow
      = Except.ok ({exampleRow with status := Status.Verifying},
          [{exampleRow with status := Status.Verifying}])
    ∧ finish [{exampleRow with status := Status.Verifying}]
        {exampleRow with status := Status.Verifying}
      = Except.error DbError.WrongStatus := by
  refine ⟨(c4_finish_guards_local_copy [exampleRow]
      {exampleRow with status := Status.Packing}).1 (by decide), ?_, ?_⟩
  · exact ((c4_finish_guards_local_copy [exampleRow] exampleRow).2 rfl rfl).1
  · exact (c4_finish_guards_local_copy [{exampleRow with status := Status.Verifying}]
      {exampleRow with status := Status.Verifying}).1 (by decide)

/-- C7: exclusive creation and eager reservation in `new_file`. A call naming
an id that already has a file fails (with "File too large" for an
unrepresentable size, otherwise with the `create_new` "File exists" failure)
and the directory — in particular the existing file — is untouched; a call
with `total_size = 0` succeeds, skips the reservation (for either reservation
outcome), and produces a file with zero-length contents; and when the
reservation fails after the file was created, the freshly created file is
deleted, leaving the directory as it was. -/
theorem c7_new_file_exclusive_create (fs : Fs) (id : String) (n : Nat)
    (o : Bool) :
    ((List.lookup id fs).isSome = true →
      ((new_file fs id n o).1 = Except.error "File too large"
        ∨ (new_file fs id n o).1 = Except.error "File exists")
      ∧ (new_file fs id n o).2 = fs)
    ∧ (List.lookup id fs = none →
        new_file fs id 0 o = (Except.ok (), fs ++ [(id, [])]))
    ∧ (List.lookup id fs = none → 0 < n → n ≤ I64MAX →
        new_file fs id n false = (Except.error "fallocate failed", fs)) := by
  refine ⟨?_, ?_, ?_⟩
  · intro h
    by_cases hbig : n > I64MAX
    · simp [new_file, hbig]
    · simp [new_file, hbig, h]
  · intro h
    have hbig : ¬ (0 > I64MAX) := by simp
    simp [new_file, hbig, h]
  · intro h hpos hle
    have hbig : ¬ (n > I64MAX) := by omega
    have hrm : (fs ++ [(id, [])]).removeFile id = fs := by
      have : Fs.removeFile [(id, [])] id = [] := by
        simp [Fs.removeFile]
      simpa [Fs.removeFile, List.filter_append, this]
        using removeFile_of_lookup_none fs id h
    simp [new_file, hbig, h, hpos, hrm]

/-- Witness for the C7 theorem: an existing file, a zero-size creation, and a
failed reservation, each at concrete inputs. -/
theorem c7_new_file_exclusive_create_witness :
    (((new_file [("a", [5])] "a" 9 true).1 = Except.error "File too large"
        ∨ (new_file [("a", [5])] "a" 9 true).1 = Except.error "File exists")
      ∧ (new_file [("a", [5])] "a" 9 true).2 = [("a", [5])])
    ∧ new_file [("a", [5])] "b" 0 true = (Except.ok (), [("a", [5]), ("b", [])])
    ∧ new_file [("a", [5])] "b" 2 false
      = (Except.error "fallocate failed", [("a", [5])]) := by
  refine ⟨(c7_new_file_exclusive_create [("a", [5])] "a" 9 true).1 (by decide),
    ?_, ?_⟩
  · exact (c7_new_file_exclusive_create [("a", [5])] "b" 0 true).2.1 (by decide)
  · exact (c7_new_file_exclusive_create [("a", [5])] "b" 2 false).2.2 (by decide)
      (by decide) (by norm_num [I64MAX])

/-- C5: the claim contract of `check_out`. With `want_processing = true` the
selection contains exactly the index-matching rows whose `last_activity` is
strictly older than the 60-second grace bound `now - 60`; with
`want_processing = false` no staleness bound excludes a matching row (for
every representable `last_activity` value, i.e. below the `u64::MAX`
sentinel — `last_activity` always holds a clock reading). Sampling a selected
row updates it to `processing = true, last_activity = now` and returns the
post-update record; an empty selection returns `none`, not an error. -/
theorem c5_check_out_contract (now : Nat) (db : List UploadRow)
    (project pipeline : String) (st : Status) (r : UploadRow) (w : Bool) :
    (r ∈ check_out_selection now db project pipeline st true ↔
      r ∈ db ∧ nf_status_matches r project pipeline st true = true
        ∧ r.last_activity < now - 60)
    ∧ (r.last_activity < U64MAX →
        (r ∈ check_out_selection now db project pipeline st false ↔
          r ∈ db ∧ nf_status_matches r project pipeline st false = true))
    ∧ (r ∈ check_out_selection now db project pipeline st w →
        check_out now db w (some r)
          = (Except.ok (some {r with processing := true, last_activity := now}),
             db.map (fun x =>
               if x.id == r.id then
                 {x with processing := true, last_activity := now}
               else x)))
    ∧ check_out now db w none = (Except.ok none, db) := by
  refine ⟨?_, ?_, ?_, rfl⟩
  · simp only [check_out_selection, List.mem_filter, activity_grace, if_true,
      decide_eq_true_eq, and_assoc]
  · intro hlt
    simp only [check_out_selection, List.mem_filter, activity_grace, if_false,
      decide_eq_true_eq, and_assoc]
    constructor
    · intro h
      exact ⟨h.1, h.2.1⟩
    · intro h
      exact ⟨h.1, h.2, hlt⟩
  · intro hmem
    obtain ⟨hmem1, _⟩ := List.mem_filter.mp hmem
    obtain ⟨_, hmatch⟩ := List.mem_filter.mp hmem1
    have hp : (r.processing == w) = true := by
      simp only [nf_status_matches, Bool.and_eq_true] at hmatch
      exact hmatch.2
    simp [check_out, hp]

/-- Witness for the C5 theorem at a concrete record: a fresh-claim selection
contains the matching row, sampling it returns the claimed record, and an
empty sample is no error. -/
theorem c5_check_out_contract_witness :
    (exampleRow ∈ check_out_selection 100 [exampleRow] "pr" "pl"
        Status.Uploading false ↔
      exampleRow ∈ [exampleRow]
        ∧ nf_status_matches exampleRow "pr" "pl" Status.Uploading false = true)
    ∧ check_out 100 [exampleRow] false (some exampleRow)
      = (Except.ok (some exampleRowClaimed), [exampleRowClaimed])
    ∧ check_out 100 [exampleRow] false none = (Except.ok none, [exampleRow]) := by
  have h := c5_check_out_contract 100 [exampleRow] "pr" "pl" Status.Uploading
    exampleRow false
  refine ⟨h.2.1 (by norm_num [exampleRow, U64MAX]), ?_, h.2.2.2⟩
  have hmem : exampleRow ∈ check_out_selection 100 [exampleRow] "pr" "pl"
      Status.Uploading false := by
    apply (h.2.1 (by norm_num [exampleRow, U64MAX])).mpr
    exact ⟨by simp, by decide⟩
  exact h.2.2.1 hmem

theorem lookup_removeFile_self (fs : Fs) (id : String) :
    List.lookup id (fs.removeFile id) = none := by
  rw [lookup_none_forall]
  intro p hp he
  have hmem := List.of_mem_filter hp
  simp [he] at hmem

theorem removeFile_append_self (fs : Fs) (id : String)
    (h : List.lookup id fs = none) :
    Fs.removeFile (fs ++ [(id, [])]) id = fs := by
  have h1 : Fs.removeFile [(id, [])] id = [] := by simp [Fs.removeFile]
  simpa [Fs.removeFile, List.filter_append, h1]
    using removeFile_of_lookup_none fs id h

theorem new_file_error_fs (fs : Fs) (id : String) (n : Nat) (o : Bool)
    (hfs : List.lookup id fs = none) (e : String) (fs1 : Fs)
    (h : new_file fs id n o = (Except.error e, fs1)) : fs1 = fs := by
  by_cases hbig : n > I64MAX
  · simp [new_file, hbig] at h
    exact h.2.symm
  · by_cases hpos : n > 0
    · cases o with
      | true => simp [new_file, hbig, hfs, hpos] at h
      | false =>
        simp [new_file, hbig, hfs, hpos] at h
        rw [← h.2]
        exact removeFile_append_self fs id hfs
    · simp [new_file, hbig, hfs, hpos] at h

theorem new_file_ok_lookup (fs : Fs) (id : String) (n : Nat) (o : Bool)
    (hfs : List.lookup id fs = none) (v : Unit) (fs1 : Fs)
    (h : new_file fs id n o = (Except.ok v, fs1)) :
    (List.lookup id fs1).isSome = true := by
  by_cases hbig : n > I64MAX
  · simp [new_file, hbig] at h
  · by_cases hpos : n > 0
    · cases o with
      | false => simp [new_file, hbig, hfs, hpos] at h
      | true =>
        simp [new_file, hbig, hfs, hpos] at h
        rw [← h]
        rw [lookup_setFile_isSome]
        · rfl
        · simp [lookup_append_self fs id [] hfs]
    · simp [new_file, hbig, hfs, hpos] at h
      rw [← h]
      simp [lookup_append_self fs id [] hfs]

theorem new_file_ok_of_fallocate_ok (fs : Fs) (id : String) (n : Nat)
    (hfs : List.lookup id fs = none) (hle : n ≤ I64MAX) :
    (new_file fs id n true).1 = Except.ok () := by
  have hbig : ¬ n > I64MAX := by omega
  by_cases hpos : n > 0 <;> simp [new_file, hbig, hfs, hpos]

/-! ### Helper lemmas about the retry loop -/

theorem range_pow_shift (i m : Nat) :
    2 ^ i :: (List.range m).map (fun j => 2 ^ (i + 1 + j))
      = (List.range (m + 1)).map (fun j => 2 ^ (i + j)) := by
  have hf : (fun j => 2 ^ (i + 1 + j)) = fun j => 2 ^ (i + (j + 1)) := by
    funext j
    have h : i + 1 + j = i + (j + 1) := by omega
    rw [h]
  rw [List.range_succ_eq_map, List.map_cons, List.map_map, hf]
  simp [Function.comp_def]

theorem tryLoop_attempts_le (f : Nat → Bool) (fuel i : Nat) :
    (tryLoop f i fuel).attempts ≤ fuel := by
  induction fuel generalizing i with
  | zero => simp [tryLoop]
  | succ n ih =>
    cases hf : f i with
    | true => simp [tryLoop, hf]
    | false =>
      simp only [tryLoop, hf, Bool.false_eq_true, if_false]
      have := ih (i + 1)
      omega

theorem tryLoop_all_fail (f : Nat → Bool) (fuel i : Nat)
    (h : ∀ j, j < fuel → f (i + j) = false) :
    tryLoop f i fuel
      = { success := false, attempts := fuel,
          sleeps := (List.range fuel).map (fun j => 2 ^ (i + j)) } := by
  induction fuel generalizing i with
  | zero => simp [tryLoop]
  | succ n ih =>
    have h0 : f i = false := by simpa using h 0 (Nat.succ_pos n)
    have hrest : ∀ j, j < n → f (i + 1 + j) = false := by
      intro j hj
      have heq : i + 1 + j = i + (j + 1) := by omega
      rw [heq]
      exact h (j + 1) (by omega)
    rw [← range_pow_shift]
    simp [tryLoop, h0, ih (i + 1) hrest]

theorem tryLoop_first_success (f : Nat → Bool) (fuel i k : Nat)
    (hk : k < fuel) (hfk : f (i + k) = true)
    (hmin : ∀ j, j < k → f (i + j) = false) :
    tryLoop f i fuel
      = { success := true, attempts := k + 1,
          sleeps := (List.range k).map (fun j => 2 ^ (i + j)) } := by
  induction k generalizing i fuel with
  | zero =>
    cases fuel with
    | zero => omega
    | succ n =>
      have h0 : f i = true := by simpa using hfk
      simp [tryLoop, h0]
  | succ m ih =>
    cases fuel with
    | zero => omega
    | succ n =>
      have h0 : f i = false := by simpa using hmin 0 (Nat.succ_pos m)
      have hfk2 : f (i + 1 + m) = true := by
        have heq : i + 1 + m = i + (m + 1) := by omega
        rw [heq]
        exact hfk
      have hmin2 : ∀ j, j < m → f (i + 1 + j) = false := by
        intro j hj
        have heq : i + 1 + j = i + (j + 1) := by omega
        rw [heq]
        exact hmin (j + 1) (by omega)
      rw [← range_pow_shift]
      simp [tryLoop, h0, ih n (i + 1) (by omega) hfk2 hmin2]

/-- C8: the `try_something!` retry wrapper issues at most `MAX_TRIES = 7`
attempts (numbered 0..6); it fails permanently exactly when all 7 attempts
fail, in which case all 7 attempts were issued and it slept `2 ^ attempt`
seconds after each failed attempt (`1 << i` in the source); when attempt `k`
is the first to succeed it stops there after `k + 1` attempts, having slept
`2 ^ j` seconds after each of the `k` failed attempts before it. -/
theorem c8_retry_policy (f : Nat → Bool) :
    (try_something f).attempts ≤ 7
    ∧ ((try_something f).success = false ↔ ∀ j, j < 7 → f j = false)
    ∧ ((∀ j, j < 7 → f j = false) →
        try_something f
          = { success := false, attempts := 7,
              sleeps := [1, 2, 4, 8, 16, 32, 64] })
    ∧ (∀ k, k < 7 → f k = true → (∀ j, j < k → f j = false) →
        try_something f
          = { success := true, attempts := k + 1,
              sleeps := (List.range k).map (fun j => 2 ^ j) }) := by
  have hall : (∀ j, j < 7 → f j = false) →
      try_something f
        = { success := false, attempts := 7,
            sleeps := [1, 2, 4, 8, 16, 32, 64] } := by
    intro h
    have := tryLoop_all_fail f 7 0 (by simpa using h)
    simpa [try_something, MAX_TRIES] using this
  have hfirst : ∀ k, k < 7 → f k = true → (∀ j, j < k → f j = false) →
      try_something f
        = { success := true, attempts := k + 1,
            sleeps := (List.range k).map (fun j => 2 ^ j) } := by
    intro k hk hfk hmin
    have := tryLoop_first_success f 7 0 k hk (by simpa using hfk)
      (by simpa using hmin)
    simpa [try_something, MAX_TRIES] using this
  refine ⟨by simpa [try_something, MAX_TRIES] using tryLoop_attempts_le f 7 0,
    ?_, hall, hfirst⟩
  constructor
  · intro hs
    by_contra hnot
    push_neg at hnot
    obtain ⟨j, hj, hfj⟩ := hnot
    have hex : ∃ m, f m = true := ⟨j, by simpa using hfj⟩
    have hmlt : Nat.find hex < 7 := by
      have := Nat.find_min' hex (by simpa using hfj)
      omega
    have := hfirst (Nat.find hex) hmlt (Nat.find_spec hex)
      (fun m hm => by
        have := Nat.find_min hex hm
        simpa using this)
    rw [this] at hs
    simp at hs
  · intro h
    rw [hall h]

/-- Witness for the C8 theorem: a call that first succeeds on attempt 2 stops
after 3 attempts with sleeps 1s and 2s, and a call that always fails exhausts
all 7 attempts with the full backoff schedule. -/
theorem c8_retry_policy_witness :
    (try_something (fun j => j == 2)).attempts ≤ 7
    ∧ try_something (fun j => j == 2)
      = { success := true, attempts := 3, sleeps := [1, 2] }
    ∧ try_something (fun _ => false)
      = { success := false, attempts := 7,
          sleeps := [1, 2, 4, 8, 16, 32, 64] } := by
  refine ⟨(c8_retry_policy (fun j => j == 2)).1, ?_, ?_⟩
  · have h := (c8_retry_policy (fun j => j == 2)).2.2.2 2 (by decide)
      (by decide) (by decide)
    exact h.trans (by decide)
  · exact (c8_retry_policy (fun _ => false)).2.2.1 (fun j _ => rfl)

/-- C6: the init saga of `new_upload` creates the backing file and the
record both-or-neither. For a fresh id (no file and no record with that id
yet): the file is present in the resulting directory exactly when a record
with the id is present in the resulting database; when file creation fails
the handler answers an error with the database — hence the record — and the
directory untouched; when record insertion fails after the file was created
the handler deletes the file before answering the error, leaving no file
under the id; and when both steps succeed the response is the success
envelope with both the file and the record in place. -/
theorem c6_new_upload_both_or_neither (fallocate_ok : Bool)
    (ins : InsertOutcome) (now : Nat) (fs : Fs) (db : List UploadRow)
    (cwd id : String) (p : UploadInitialisationPayload)
    (hfs : List.lookup id fs = none)
    (hdb : db.all (fun r => !(r.id == id)) = true) :
    ∀ u, new_upload fallocate_ok ins now fs db cwd id p = u →
      ((List.lookup id u.fs).isSome = u.db.any (fun r => r.id == id))
      ∧ (∀ e fs1,
          new_file fs id p.file.size fallocate_ok = (Except.error e, fs1) →
          u.resp.isOk = false ∧ u.db = db ∧ u.fs = fs)
      ∧ (ins ≠ InsertOutcome.inserted →
          u.resp.isOk = false ∧ u.db = db ∧ List.lookup id u.fs = none)
      ∧ (fallocate_ok = true → p.file.size ≤ I64MAX →
          ins = InsertOutcome.inserted →
          u.resp.isOk = true ∧ (List.lookup id u.fs).isSome = true
            ∧ u.db.any (fun r => r.id == id) = true) := by
  intro u hu
  subst hu
  have hany0 : db.any (fun r => r.id == id) = false := by
    rw [List.any_eq_false]
    intro x hx
    have hx2 := (List.all_eq_true.mp hdb) x hx
    simpa using hx2
  simp only [new_upload]
  cases hnf : new_file fs id p.file.size fallocate_ok with
  | mk r fs1 =>
    cases r with
    | error e0 =>
      have hfs1 : fs1 = fs := new_file_error_fs fs id p.file.size fallocate_ok
        hfs e0 fs1 hnf
      dsimp only
      refine ⟨?_, fun e fs2 h2 => ⟨rfl, rfl, hfs1⟩,
        fun _ => ⟨rfl, rfl, hfs1 ▸ hfs⟩, ?_⟩
      · rw [hfs1]
        simp [hfs, hany0]
      · intro ho hle _
        subst ho
        have hok := new_file_ok_of_fallocate_ok fs id p.file.size hfs hle
        rw [hnf] at hok
        simp at hok
    | ok v =>
      have hlook : (List.lookup id fs1).isSome = true :=
        new_file_ok_lookup fs id p.file.size fallocate_ok hfs v fs1 hnf
      cases ins with
      | inserted =>
        dsimp only [UploadRow.new]
        refine ⟨?_, fun e fs2 h2 => absurd h2 (by simp),
          fun hne => absurd rfl hne, fun _ _ _ => ?_⟩
        · simp [hlook, List.any_append]
        · exact ⟨rfl, hlook, by simp [List.any_append]⟩
      | notInserted =>
        have hdel : (delete_file fs1 id).2 = fs1.removeFile id := by
          simp [delete_file, hlook]
        dsimp only [UploadRow.new, ErrorablePayload.fromDbError]
        rw [hdel]
        refine ⟨?_, fun e fs2 h2 => absurd h2 (by simp),
          fun _ => ⟨rfl, rfl, lookup_removeFile_self fs1 id⟩,
          fun _ _ hins => absurd hins (by simp)⟩
        simp [lookup_removeFile_self, hany0]
      | callFailed =>
        have hdel : (delete_file fs1 id).2 = fs1.removeFile id := by
          simp [delete_file, hlook]
        dsimp only [UploadRow.new, ErrorablePayload.fromDbError]
        rw [hdel]
        refine ⟨?_, fun e fs2 h2 => absurd h2 (by simp),
          fun _ => ⟨rfl, rfl, lookup_removeFile_self fs1 id⟩,
          fun _ _ hins => absurd hins (by simp)⟩
        simp [lookup_removeFile_self, hany0]

/-- Witness for the C6 theorem on an empty directory and database: a fully
successful init leaves file and record in step; a failed insertion answers an
error with no record and no file left behind; a failed reservation answers an
error leaving the directory empty. -/
theorem c6_new_upload_both_or_neither_witness :
    ((List.lookup "u1" (new_upload true InsertOutcome.inserted 100 [] [] "data"
          "u1" examplePayload).fs).isSome
      = (new_upload true InsertOutcome.inserted 100 [] [] "data" "u1"
          examplePayload).db.any (fun r => r.id == "u1"))
    ∧ (new_upload true InsertOutcome.inserted 100 [] [] "data" "u1"
        examplePayload).resp.isOk = true
    ∧ (new_upload true InsertOutcome.notInserted 100 [] [] "data" "u1"
        examplePayload).resp.isOk = false
    ∧ (new_upload true InsertOutcome.notInserted 100 [] [] "data" "u1"
        examplePayload).db = []
    ∧ List.lookup "u1" (new_upload true InsertOutcome.notInserted 100 [] []
        "data" "u1" examplePayload).fs = none
    ∧ (new_upload false InsertOutcome.inserted 100 [] [] "data" "u1"
        examplePayload).resp.isOk = false
    ∧ (new_upload false InsertOutcome.inserted 100 [] [] "data" "u1"
        examplePayload).fs = [] := by
  have h1 := c6_new_upload_both_or_neither true InsertOutcome.inserted 100
    [] [] "data" "u1" examplePayload rfl rfl _ rfl
  have h2 := c6_new_upload_both_or_neither true InsertOutcome.notInserted 100
    [] [] "data" "u1" examplePayload rfl rfl _ rfl
  have h3 := c6_new_upload_both_or_neither false InsertOutcome.inserted 100
    [] [] "data" "u1" examplePayload rfl rfl _ rfl
  have hnf3 : new_file ([] : Fs) "u1" examplePayload.file.size false
      = (Except.error "fallocate failed", []) := by rfl
  refine ⟨h1.1, (h1.2.2.2 rfl (by decide) rfl).1,
    (h2.2.2.1 (by decide)).1, (h2.2.2.1 (by decide)).2.1,
    (h2.2.2.1 (by decide)).2.2,
    (h3.2.1 "fallocate failed" [] hnf3).1,
    (h3.2.1 "fallocate failed" [] hnf3).2.2⟩

/-- C10: the offset guard of `put_upload_chunk` is `offset > row.size()`, so
for a record in `Uploading` status an offset exactly equal to the declared
size is accepted — a PUT at `offset == size` with an empty body answers the
success envelope, bumps only `last_activity`, and leaves the file contents
untouched — while every offset strictly greater than the size is refused with
"Offset too large" and changes nothing. -/
theorem c10_chunk_put_at_size_boundary (now : Nat) (db : List UploadRow)
    (fs : Fs) (row : UploadRow)
    (hrow : db.filter (fun r => r.id == row.id) = [row])
    (hst : row.status = Status.Uploading)
    (hnd : (fs.map Prod.fst).Nodup)
    (c : FileContents) (hfile : List.lookup row.id fs = some c) :
    (put_upload_chunk now db fs row.id row.file.size []
      = { resp := ErrorablePayload.Ok (),
          db := db.map (fun r =>
            if r.id == row.id then {r with last_activity := now} else r),
          fs := fs })
    ∧ (∀ off body, off > row.file.size →
        put_upload_chunk now db fs row.id off body
          = { resp := ErrorablePayload.Err "Offset too large",
              db := db, fs := fs }) := by
  have hmem : row ∈ db := by
    have : row ∈ db.filter (fun r => r.id == row.id) := by
      rw [hrow]
      simp
    exact (List.mem_filter.mp this).1
  have hany : db.any (fun r => r.id == row.id) = true := by
    rw [List.any_eq_true]
    exact ⟨row, hmem, by simp⟩
  constructor
  · have hwrite : write_to_file fs row.id row.file.size row.file.size []
        = (Except.ok (), fs) := by
      simp [write_to_file, hfile, writeChunks, setFile_self fs row.id c hnd hfile]
    simp [put_upload_chunk, from_database, hrow, hst, enter, hany, hwrite]
  · intro off body hoff
    simp [put_upload_chunk, from_database, hrow, hst, hoff, Nat.not_lt.mpr,
      Nat.lt_irrefl]

/-- Witness for the C10 theorem: a PUT at `offset == size == 4` with an empty
body on a concrete 4-byte upload, and a PUT at offset 5 being refused. -/
theorem c10_chunk_put_at_size_boundary_witness :
    put_upload_chunk 200 [exampleRow] [("u1", [0, 0, 0, 0])] "u1" 4 []
      = { resp := ErrorablePayload.Ok (),
          db := [{exampleRow with last_activity := 200}],
          fs := [("u1", [0, 0, 0, 0])] }
    ∧ put_upload_chunk 200 [exampleRow] [("u1", [0, 0, 0, 0])] "u1" 5
        [some [9]]
      = { resp := ErrorablePayload.Err "Offset too large",
          db := [exampleRow], fs := [("u1", [0, 0, 0, 0])] } := by
  have h := c10_chunk_put_at_size_boundary 200 [exampleRow]
    [("u1", [0, 0, 0, 0])] exampleRow (by decide) rfl (by decide)
    [0, 0, 0, 0] rfl
  exact ⟨h.1, h.2 5 [some [9]] (by decide)⟩

/-- Witness for the amended C3 theorem at a concrete two-event history: the
stream emits the current status and then the changed status, in order. -/
theorem c3_stream_emits_status_of_every_event_witness :
    stream_status_changes
        ([exampleRow, {exampleRow with status := Status.Verifying}].map some)
      = [Status.Uploading, Status.Verifying] := by
  have h := c3_stream_emits_status_of_every_event
    [exampleRow, {exampleRow with status := Status.Verifying}]
  exact h.trans (by decide)

/-- C9: dispatch of received statuses in the client. `FINISHED` makes
`iter_file` return the success outcome; `FAILED_CHECKSUM` and `FAILED_OTHER`
abort with a generic hard error; `FAILED_VERIFY` yields the distinguished
`Ok(Err(()))` outcome; any other status leaves the loop waiting. `main` maps
the verify-failure outcome to a step distinct from the generic-error step. -/
theorem c9_terminal_status_dispatch :
    (∀ rest, iter_file_outcome (status.FINISHED :: rest)
        = some (Except.ok (Except.ok ())))
    ∧ (∀ rest, iter_file_outcome (status.FAILED_CHECKSUM :: rest)
        = some (Except.error ("bad status: " ++ status.FAILED_CHECKSUM)))
    ∧ (∀ rest, iter_file_outcome (status.FAILED_OTHER :: rest)
        = some (Except.error ("bad status: " ++ status.FAILED_OTHER)))
    ∧ (∀ rest, iter_file_outcome (status.FAILED_VERIFY :: rest)
        = some (Except.ok (Except.error ())))
    ∧ (∀ rest, iter_file_outcome (status.PENDING :: rest)
        = iter_file_outcome rest)
    ∧ main_dispatch (Except.ok (Except.error ())) = MainStep.retryVerifyFailed
    ∧ (∀ m, main_dispatch (Except.error m) = MainStep.retryOther)
    ∧ MainStep.retryVerifyFailed ≠ MainStep.retryOther := by
  refine ⟨fun rest => rfl, fun rest => rfl, fun rest => rfl, fun rest => rfl,
    fun rest => rfl, rfl, fun m => rfl, by decide⟩

/-- Witness for the C9 theorem with every quantifier instantiated at a
concrete remainder of the stream. -/
theorem c9_terminal_status_dispatch_witness :
    iter_file_outcome [status.FINISHED] = some (Except.ok (Except.ok ()))
    ∧ iter_file_outcome [status.FAILED_CHECKSUM]
      = some (Except.error "bad status: FAILED_CHECKSUM")
    ∧ iter_file_outcome [status.FAILED_OTHER]
      = some (Except.error "bad status: FAILED_OTHER")
    ∧ iter_file_outcome [status.FAILED_VERIFY]
      = some (Except.ok (Except.error ()))
    ∧ iter_file_outcome [status.PENDING, status.FINISHED]
      = some (Except.ok (Except.ok ()))
    ∧ main_dispatch (Except.ok (Except.error ())) = MainStep.retryVerifyFailed
    ∧ main_dispatch (Except.error "bad status: FAILED_OTHER")
      = MainStep.retryOther := by
  have h := c9_terminal_status_dispatch
  exact ⟨h.1 [], (h.2.1 []).trans (by rfl), (h.2.2.1 []).trans (by rfl),
    h.2.2.2.1 [], (h.2.2.2.2.1 [status.FINISHED]).trans (h.1 []),
    h.2.2.2.2.2.1, h.2.2.2.2.2.2.1 "bad status: FAILED_OTHER"⟩

end Bullseye
